import Mathlib

/-!
Jogo das Cadeiras (musical chairs): a shallow embedding of `src/C++/src/main.cpp`

The C++ program runs one thread per participant (`Jogador::joga`) and one
coordinator thread (`Coordenador::iniciar_jogo`) over shared state.  The
embedding keeps the shared state in one record and turns every method into a
function on that record.  Blocking operations return `none` when the caller
cannot proceed in the given state.  `int` values are modelled in `Int`
(no arithmetic of the program comes near the 32-bit limits on the runs
considered), vectors are lists, and the semaphore is its counter:
`release(n)` adds `n`, `acquire()` needs a positive counter and subtracts one.

A participant holds `music_mutex` from the return of `wait` to the end of that
pass of its loop, so the passes of different participants do not interleave.
The coordinator takes no lock: its statements can fall between any two
statements of a participant.  The runs of the whole program are therefore
given by a step function (`passo`) in which each thread executes one statement
at a time, and a schedule names the thread that moves next.
-/

namespace MusicalChairs

/-- Constant `CADEIRAS_RETIRADAS_TURNO` of main.cpp (line 18). -/
def CADEIRAS_RETIRADAS_TURNO : Int := 1

/-- Constant `NUM_JOGADORES` of main.cpp (line 21). -/
def NUM_JOGADORES : Nat := 4

/-- The shared state: the four private members of `JogoDasCadeiras`
(lines 124-127) followed by the globals `vencedor`, `cadeira_sem` (its counter),
`musica_parada` and `jogo_ativo` (lines 23-29). -/
structure Estado where
  jogadores_com_cadeiras : List Int
  jogadores_eliminados : List Int
  num_jogadores : Int
  cadeiras : Int
  vencedor : Int
  cadeira_sem : Int
  musica_parada : Bool
  jogo_ativo : Bool
deriving DecidableEq

/-- The members of `Jogador` other than the reference to the game (lines 169-171). -/
structure Jogador where
  id : Int
  eliminado : Bool
deriving DecidableEq

/-- The state at program start for a roster of `n` participants: the globals
with their initialisers (`cadeira_sem` holds `n - 1` permits, line 25) and the
constructor `JogoDasCadeiras(n)` (lines 55-59).  The constructor leaves
`cadeiras` uninitialised, so its first value `c` is a parameter. -/
def estado_inicial (n : Nat) (c : Int) : Estado :=
  { jogadores_com_cadeiras := []
    jogadores_eliminados := []
    num_jogadores := n
    cadeiras := c
    vencedor := -1
    cadeira_sem := (n : Int) - 1
    musica_parada := true
    jogo_ativo := true }

/-- Method `counting_semaphore::release(n)` on the counter (lines 48-49). -/
def release (n : Int) (s : Estado) : Estado :=
  { s with cadeira_sem := s.cadeira_sem + n }

/-- Method `counting_semaphore::acquire()` on the counter (lines 45-46):
`none` when the caller blocks. -/
def acquire (s : Estado) : Option Estado :=
  if 0 < s.cadeira_sem then some { s with cadeira_sem := s.cadeira_sem - 1 } else none

/-- Method `JogoDasCadeiras::iniciar_rodada` (lines 61-71). -/
def iniciar_rodada (s : Estado) : Estado :=
  let s1 := { s with cadeiras := s.num_jogadores - CADEIRAS_RETIRADAS_TURNO }
  let s2 := { s1 with jogadores_com_cadeiras := [] }
  let s3 := { s2 with jogadores_eliminados := [] }
  let s4 := release s3.cadeiras s3
  { s4 with musica_parada := true }

/-- Method `JogoDasCadeiras::parar_musica` (lines 73-78). -/
def parar_musica (s : Estado) : Estado :=
  { s with musica_parada := false }

/-- Method `JogoDasCadeiras::eliminar_jogador` (lines 80-84). -/
def eliminar_jogador (jogador_id : Int) (s : Estado) : Estado :=
  let s1 := { s with jogadores_eliminados := s.jogadores_eliminados ++ [jogador_id] }
  { s1 with num_jogadores := s1.num_jogadores - 1 }

/-- Method `JogoDasCadeiras::verificar_fim_jogo` (lines 102-108).  The read
`jogadores_com_cadeiras[0]` of an empty vector has no defined value: the
result is then `Except.error` carrying the state reached just before the read. -/
def verificar_fim_jogo (s : Estado) : Except Estado Estado :=
  if s.jogadores_com_cadeiras.length ≤ 1 then
    let s1 := { s with jogo_ativo := false }
    match s1.jogadores_com_cadeiras with
    | [] => Except.error s1
    | v :: _ => Except.ok { s1 with vencedor := v }
  else Except.ok s

/-- Method `JogoDasCadeiras::ocupar_cadeira` (lines 110-113). -/
def ocupar_cadeira (jogador_id : Int) (s : Estado) : Estado :=
  let s1 := { s with cadeiras := s.cadeiras - 1 }
  { s1 with jogadores_com_cadeiras := s1.jogadores_com_cadeiras ++ [jogador_id] }

/-- Method `JogoDasCadeiras::tem_cadeira_disponivel` (lines 115-117); the
comparison is returned as an `int`. -/
def tem_cadeira_disponivel (s : Estado) : Int :=
  if s.cadeiras > 0 then 1 else 0

/-- Method `JogoDasCadeiras::jogadores_nao_foram_eliminados` (lines 119-121). -/
def jogadores_nao_foram_eliminados (s : Estado) : Bool :=
  decide ((s.jogadores_eliminados.length : Int) ≠ CADEIRAS_RETIRADAS_TURNO)

/-- Method `Jogador::tentar_ocupar_cadeira` (lines 135-138). -/
def tentar_ocupar_cadeira (s : Estado) : Option Estado :=
  acquire s

/-- Method `Jogador::verificar_eliminacao` (lines 140-148). -/
def verificar_eliminacao (p : Jogador) (s : Estado) : Jogador × Estado :=
  if tem_cadeira_disponivel s ≠ 0 then
    (p, ocupar_cadeira p.id s)
  else
    ({ p with eliminado := true }, eliminar_jogador p.id s)

/-- Method `Coordenador::liberar_threads_eliminadas` (lines 207-210). -/
def liberar_threads_eliminadas (s : Estado) : Estado :=
  release CADEIRAS_RETIRADAS_TURNO s

/-- The exit test of the wait loop `do { wait } while (musica_parada)` of
`Jogador::joga` (lines 154-156): a participant that wakes leaves the loop
exactly when the flag reads false. -/
def passa_espera (s : Estado) : Bool :=
  !s.musica_parada

/-- What one pass through the body of the `while` loop of `Jogador::joga`
(lines 151-165) comes to for a participant that wakes from `wait`. -/
inductive Passo where
  | sai_do_laco
  | continua_esperando
  | bloqueado_no_semaforo
  | reivindicou (p : Jogador) (s : Estado)
deriving DecidableEq

/-- One pass through the body of the loop of `Jogador::joga` (lines 151-165)
by participant `p` waking in state `s`. -/
def joga_iteracao (p : Jogador) (s : Estado) : Passo :=
  if p.eliminado then Passo.sai_do_laco
  else if !passa_espera s then Passo.continua_esperando
  else if !s.jogo_ativo then Passo.sai_do_laco
  else
    match tentar_ocupar_cadeira s with
    | none => Passo.bloqueado_no_semaforo
    | some s1 =>
      let r := verificar_eliminacao p s1
      Passo.reivindicou r.1 r.2

/-- The claim steps of a list of participants, in list order: each performs
`verificar_eliminacao` once. -/
def reivindicacoes : List Jogador → Estado → Estado
  | [], s => s
  | p :: ps, s => reivindicacoes ps (verificar_eliminacao p s).2

/-- The program as a whole: the shared state and the participant objects
`jogadores_objs` of `main` (lines 223-226). -/
structure Mundo where
  estado : Estado
  jogadores : List Jogador
deriving DecidableEq

/-- The participant objects built by `main` (lines 223-226): ids `1..n`, none
eliminated. -/
def jogadores_iniciais (n : Nat) : List Jogador :=
  (List.range n).map (fun (i : Nat) => { id := (i : Int) + 1, eliminado := false })

/-- The program at start for a roster of `n` (`main`, lines 218-226). -/
def mundo_inicial (n : Nat) (c : Int) : Mundo :=
  { estado := estado_inicial n c, jogadores := jogadores_iniciais n }

/-- The participant with id `i` wakes and runs one pass of the loop of
`joga`; `none` unless the pass reaches `verificar_eliminacao`. -/
def reivindica (i : Int) (m : Mundo) : Option Mundo :=
  match m.jogadores.find? (fun p => p.id == i) with
  | none => none
  | some p =>
    match joga_iteracao p m.estado with
    | Passo.reivindicou p1 s1 =>
      some { estado := s1, jogadores := m.jogadores.map (fun q => if q.id == i then p1 else q) }
    | _ => none

/-- The participants with the listed ids claim one after the other. -/
def reivindicam : List Int → Mundo → Option Mundo
  | [], m => some m
  | i :: rest, m =>
    match reivindica i m with
    | none => none
    | some m1 => reivindicam rest m1

/-- Statement `jogadores_eliminados.push_back(jogador_id)` of
`JogoDasCadeiras::eliminar_jogador` (line 82). -/
def eliminar_jogador_registra (jogador_id : Int) (s : Estado) : Estado :=
  { s with jogadores_eliminados := s.jogadores_eliminados ++ [jogador_id] }

/-- Statement `num_jogadores--` of `JogoDasCadeiras::eliminar_jogador` (line 83). -/
def eliminar_jogador_decrementa (s : Estado) : Estado :=
  { s with num_jogadores := s.num_jogadores - 1 }

/-- The statement of `Coordenador::iniciar_jogo` (lines 185-199) that the
coordinator thread executes next: the loop test (185), `iniciar_rodada` (186),
the sleep and `parar_musica` (188-191), the first busy wait (192),
`liberar_threads_eliminadas` (194), the second busy wait (195),
`verificar_fim_jogo` and `exibir_estado` (197-198), or the code after the loop. -/
inductive PontoCoordenador where
  | teste_laco
  | inicia_rodada
  | para_musica
  | espera_cadeiras
  | libera
  | espera_eliminados
  | verifica_fim
  | fora_do_laco
deriving DecidableEq

/-- Where a participant thread stands in `Jogador::joga` (lines 150-166):
inside `music_cv.wait` with `music_mutex` released (155), before `acquire`
(161), before `verificar_eliminacao` (164), inside `eliminar_jogador` between
`push_back` (82) and `num_jogadores--` (83), or out of the loop.  From the
return of `wait` to the end of the pass the thread holds `music_mutex`. -/
inductive PontoJogador where
  | esperando
  | adquirindo
  | verificando
  | eliminando
  | saiu
deriving DecidableEq

/-- A participant thread: its `Jogador` object and the point it has reached. -/
structure Fio where
  jogador : Jogador
  ponto : PontoJogador
deriving DecidableEq

/-- The running program: the shared state, the participant threads, the point
the coordinator thread has reached, the thread that holds `music_mutex` (by
participant id; the coordinator never takes it), and `passagens`, a count of
the passes of the coordinator loop begun so far, kept for the statements
below (the program has no such variable). -/
structure Sistema where
  estado : Estado
  fios : List Fio
  ponto : PontoCoordenador
  dono : Option Int
  passagens : Nat
deriving DecidableEq

/-- The program once `main` has started its threads (lines 218-233), every
participant having reached `wait`, the coordinator about to test its loop. -/
def sistema_inicial (n : Nat) (c : Int) : Sistema :=
  { estado := estado_inicial n c
    fios := (jogadores_iniciais n).map (fun p => { jogador := p, ponto := PontoJogador.esperando })
    ponto := PontoCoordenador.teste_laco
    dono := none
    passagens := 0 }

/-- The next statement of the coordinator thread.  A busy wait whose condition
still holds leaves the thread where it is; `none` when the thread has left
the loop or `verificar_fim_jogo` reads an empty vector. -/
def passo_coordenador (S : Sistema) : Option Sistema :=
  match S.ponto with
  | PontoCoordenador.teste_laco =>
    if S.estado.jogo_ativo then
      some { S with ponto := PontoCoordenador.inicia_rodada, passagens := S.passagens + 1 }
    else some { S with ponto := PontoCoordenador.fora_do_laco }
  | PontoCoordenador.inicia_rodada =>
    some { S with estado := iniciar_rodada S.estado, ponto := PontoCoordenador.para_musica }
  | PontoCoordenador.para_musica =>
    some { S with estado := parar_musica S.estado, ponto := PontoCoordenador.espera_cadeiras }
  | PontoCoordenador.espera_cadeiras =>
    if tem_cadeira_disponivel S.estado ≠ 0 then some S
    else some { S with ponto := PontoCoordenador.libera }
  | PontoCoordenador.libera =>
    some { S with estado := liberar_threads_eliminadas S.estado,
                  ponto := PontoCoordenador.espera_eliminados }
  | PontoCoordenador.espera_eliminados =>
    if jogadores_nao_foram_eliminados S.estado then some S
    else some { S with ponto := PontoCoordenador.verifica_fim }
  | PontoCoordenador.verifica_fim =>
    match verificar_fim_jogo S.estado with
    | Except.ok s1 => some { S with estado := s1, ponto := PontoCoordenador.teste_laco }
    | Except.error _ => none
  | PontoCoordenador.fora_do_laco => none

/-- The next statement of a participant thread `f`: the thread after the step,
the shared state after it and the holder of `music_mutex` after it.  A thread
in `wait` returns only with the mutex free; it waits again when the flag
`musica_parada` is set, leaves the loop when `jogo_ativo` is false, and goes on
to `acquire` otherwise, holding the mutex.  `verificar_eliminacao` either takes
a seat, which ends the pass, or executes the `push_back` of `eliminar_jogador`;
the rest of the elimination (`num_jogadores--`, `eliminado = true`, loop exit)
is a step of its own.  `none` when the thread cannot move. -/
def passo_fio (f : Fio) (S : Sistema) : Option (Fio × Estado × Option Int) :=
  match f.ponto with
  | PontoJogador.esperando =>
    if S.dono.isSome then none
    else if !passa_espera S.estado then some (f, S.estado, none)
    else if !S.estado.jogo_ativo then
      some ({ f with ponto := PontoJogador.saiu }, S.estado, none)
    else some ({ f with ponto := PontoJogador.adquirindo }, S.estado, some f.jogador.id)
  | PontoJogador.adquirindo =>
    match tentar_ocupar_cadeira S.estado with
    | none => none
    | some s1 => some ({ f with ponto := PontoJogador.verificando }, s1, S.dono)
  | PontoJogador.verificando =>
    if tem_cadeira_disponivel S.estado ≠ 0 then
      some ({ f with ponto := PontoJogador.esperando }, ocupar_cadeira f.jogador.id S.estado, none)
    else
      some ({ f with ponto := PontoJogador.eliminando },
        eliminar_jogador_registra f.jogador.id S.estado, S.dono)
  | PontoJogador.eliminando =>
    some ({ jogador := { f.jogador with eliminado := true }, ponto := PontoJogador.saiu },
      eliminar_jogador_decrementa S.estado, none)
  | PontoJogador.saiu => none

/-- A thread of the program: the coordinator or the participant with a given id. -/
inductive Agente where
  | coordenador
  | jogador (i : Int)
deriving DecidableEq

/-- One step of the program: the named thread executes its next statement. -/
def passo (a : Agente) (S : Sistema) : Option Sistema :=
  match a with
  | Agente.coordenador => passo_coordenador S
  | Agente.jogador i =>
    match S.fios.find? (fun f => f.jogador.id == i) with
    | none => none
    | some f =>
      match passo_fio f S with
      | none => none
      | some (f1, s1, d1) =>
        some { S with estado := s1
                      fios := S.fios.map (fun g => if g.jogador.id == i then f1 else g)
                      dono := d1 }

/-- A run of the program under a schedule: the listed threads step one after
the other; `none` as soon as the thread whose turn it is cannot move. -/
def executa : List Agente → Sistema → Option Sistema
  | [], S => some S
  | a :: rest, S =>
    match passo a S with
    | none => none
    | some S1 => executa rest S1

/-- The steps of one whole pass of the participant with id `i` that ends with a
seat: return from `wait`, `acquire`, `verificar_eliminacao`. -/
def passe (i : Int) : List Agente :=
  [Agente.jogador i, Agente.jogador i, Agente.jogador i]

/-- The three steps with which the coordinator opens a round: loop test,
`iniciar_rodada`, `parar_musica`. -/
def abertura : List Agente :=
  [Agente.coordenador, Agente.coordenador, Agente.coordenador]

/-- A schedule of the program of `main` (four participants).  Round 1:
participants 1, 2, 3 take the seats, the coordinator leaves its first busy wait
and releases, participant 4 finds no seat and executes the `push_back` of
`eliminar_jogador`.  The coordinator then leaves its second busy wait
(`jogadores_eliminados.size()` is 1), runs `verificar_fim_jogo`, the loop test
and `iniciar_rodada`; only then does participant 4 execute `num_jogadores--`.
Round 2: `parar_musica`, then participants 1, 2, 3 each make one pass, and the
coordinator leaves its first busy wait and releases. -/
def agenda_contagem_atrasada_4 : List Agente :=
  abertura ++ passe 1 ++ passe 2 ++ passe 3
    ++ [Agente.coordenador, Agente.coordenador]
    ++ passe 4
    ++ [Agente.coordenador, Agente.coordenador, Agente.coordenador, Agente.coordenador]
    ++ [Agente.jogador 4]
    ++ [Agente.coordenador]
    ++ passe 1 ++ passe 2 ++ passe 3
    ++ [Agente.coordenador, Agente.coordenador]

/-- The schedule of the same shape for three participants, with the claim
order 2, 1, 3 in round 1 and 1, 2 in round 2: the coordinator passes its second
busy wait, `verificar_fim_jogo`, the loop test and `iniciar_rodada` between the
`push_back` and the `num_jogadores--` of participant 3. -/
def agenda_contagem_atrasada_3 : List Agente :=
  abertura ++ passe 2 ++ passe 1
    ++ [Agente.coordenador, Agente.coordenador]
    ++ passe 3
    ++ [Agente.coordenador, Agente.coordenador, Agente.coordenador, Agente.coordenador]
    ++ [Agente.jogador 3]
    ++ [Agente.coordenador]
    ++ passe 1 ++ passe 2
    ++ [Agente.coordenador, Agente.coordenador]

/-- A schedule of the program of `main` in which every elimination is
completed before the coordinator looks: three rounds with the claim orders
1, 2, 3, 4, then 3, 1, 2, then 3, 1, followed by the coordinator's last steps up
to the loop test that ends the loop. -/
def agenda_em_ordem_4 : List Agente :=
  abertura ++ passe 1 ++ passe 2 ++ passe 3
    ++ [Agente.coordenador, Agente.coordenador]
    ++ passe 4 ++ [Agente.jogador 4]
    ++ [Agente.coordenador, Agente.coordenador]
    ++ abertura ++ passe 3 ++ passe 1
    ++ [Agente.coordenador, Agente.coordenador]
    ++ passe 2 ++ [Agente.jogador 2]
    ++ [Agente.coordenador, Agente.coordenador]
    ++ abertura ++ passe 3
    ++ passe 1 ++ [Agente.jogador 1]
    ++ [Agente.coordenador, Agente.coordenador, Agente.coordenador, Agente.coordenador,
        Agente.coordenador]

/-- The schedule of a game with a single participant: the coordinator opens the
round, passes its first busy wait (`cadeiras` is 0) and releases; participant 1
then makes its pass and completes its elimination; the coordinator leaves its
second busy wait and stands before `verificar_fim_jogo`. -/
def agenda_um_jogador : List Agente :=
  abertura ++ [Agente.coordenador, Agente.coordenador]
    ++ passe 1 ++ [Agente.jogador 1]
    ++ [Agente.coordenador]

/-- The semaphore operations of one round: the `release` inside
`iniciar_rodada`, the `acquire` of a participant in `tentar_ocupar_cadeira`,
and the `release` of `liberar_threads_eliminadas`. -/
inductive OpSemaforo where
  | inicia
  | adquire
  | libera
deriving DecidableEq

/-- One semaphore operation of a round, through the method that performs it;
`none` when the `acquire` finds the counter at 0. -/
def aplica_op : OpSemaforo → Estado → Option Estado
  | OpSemaforo.inicia, s => some (iniciar_rodada s)
  | OpSemaforo.adquire, s => tentar_ocupar_cadeira s
  | OpSemaforo.libera, s => some (liberar_threads_eliminadas s)

/-- A sequence of semaphore operations, in list order. -/
def aplica_ops : List OpSemaforo → Estado → Option Estado
  | [], s => some s
  | o :: os, s =>
    match aplica_op o s with
    | none => none
    | some s1 => aplica_ops os s1

/-- The steps that the threads take on the shared state between a
`parar_musica` and the next `iniciar_rodada`: a participant's `acquire`, a
participant's `verificar_eliminacao`, the coordinator's
`liberar_threads_eliminadas` and the coordinator's `verificar_fim_jogo`. -/
inductive Acao where
  | adquire
  | verifica (p : Jogador)
  | libera
  | fim_jogo
deriving DecidableEq

/-- One step on the shared state; `none` when it cannot be taken (`acquire`
at counter 0) or has no defined result (`verificar_fim_jogo` reading an empty
vector). -/
def executa_acao : Acao → Estado → Option Estado
  | Acao.adquire, s => tentar_ocupar_cadeira s
  | Acao.verifica p, s => some (verificar_eliminacao p s).2
  | Acao.libera, s => some (liberar_threads_eliminadas s)
  | Acao.fim_jogo, s =>
    match verificar_fim_jogo s with
    | Except.ok s1 => some s1
    | Except.error _ => none

/-- A sequence of steps on the shared state, in list order. -/
def executa_acoes : List Acao → Estado → Option Estado
  | [], s => some s
  | a :: rest, s =>
    match executa_acao a s with
    | none => none
    | some s1 => executa_acoes rest s1

/-- The change of the semaphore counter made by one operation of a round with
`n` active participants. -/
def variacao (n : Int) : OpSemaforo → Int
  | OpSemaforo.inicia => n - CADEIRAS_RETIRADAS_TURNO
  | OpSemaforo.adquire => -1
  | OpSemaforo.libera => CADEIRAS_RETIRADAS_TURNO

/-! ## Claim steps within a round -/

theorem reivindicacoes_append (a b : List Jogador) (s : Estado) :
    reivindicacoes (a ++ b) s = reivindicacoes b (reivindicacoes a s) := by
  induction a generalizing s with
  | nil => rfl
  | cons p ps ih => simp [reivindicacoes, ih]

theorem verificar_eliminacao_senta (p : Jogador) (s : Estado) (h : 0 < s.cadeiras) :
    verificar_eliminacao p s = (p, ocupar_cadeira p.id s) := by
  simp [verificar_eliminacao, tem_cadeira_disponivel, h]

theorem verificar_eliminacao_elimina (p : Jogador) (s : Estado) (h : s.cadeiras ≤ 0) :
    verificar_eliminacao p s = ({ p with eliminado := true }, eliminar_jogador p.id s) := by
  have h1 : ¬ s.cadeiras > 0 := not_lt.mpr h
  simp [verificar_eliminacao, tem_cadeira_disponivel, h1]

theorem reivindicacoes_sentam (ps : List Jogador) (s : Estado)
    (h : (ps.length : Int) ≤ s.cadeiras) :
    reivindicacoes ps s =
      { s with jogadores_com_cadeiras := s.jogadores_com_cadeiras ++ ps.map (fun p => p.id)
               cadeiras := s.cadeiras - ps.length } := by
  induction ps generalizing s with
  | nil => simp [reivindicacoes]
  | cons p ps ih =>
    have hpos : 0 < s.cadeiras := by
      have : ((p :: ps).length : Int) = (ps.length : Int) + 1 := by simp
      omega
    have hlen : (ps.length : Int) ≤ (ocupar_cadeira p.id s).cadeiras := by
      have : ((p :: ps).length : Int) = (ps.length : Int) + 1 := by simp
      simp [ocupar_cadeira]; omega
    rw [reivindicacoes, verificar_eliminacao_senta p s hpos, ih _ hlen]
    simp [ocupar_cadeira]
    omega

theorem reivindicacoes_rodada (ps : List Jogador) (u : Jogador) (s : Estado)
    (hn : s.num_jogadores = (ps.length : Int) + 1) :
    reivindicacoes (ps ++ [u]) (iniciar_rodada s) =
      { iniciar_rodada s with
        jogadores_com_cadeiras := ps.map (fun p => p.id)
        jogadores_eliminados := [u.id]
        cadeiras := 0
        num_jogadores := ps.length } := by
  have hc : (iniciar_rodada s).cadeiras = ps.length := by
    simp [iniciar_rodada, release, CADEIRAS_RETIRADAS_TURNO, hn]
  rw [reivindicacoes_append, reivindicacoes_sentam ps _ (by rw [hc])]
  rw [reivindicacoes, reivindicacoes, verificar_eliminacao_elimina _ _ (by simp [hc])]
  simp [eliminar_jogador, iniciar_rodada, release, CADEIRAS_RETIRADAS_TURNO, hn]

/-- C1: a round started by `iniciar_rodada` with `n >= 2` active participants
of pairwise distinct ids, in which each of them performs `verificar_eliminacao`
exactly once in any order `ps`, ends with `jogadores_com_cadeiras` holding the
first `n - 1` claimants in claim order and `jogadores_eliminados` holding the
last claimant alone; the two lengths add up to `n`, exactly one participant is
eliminated, and no id is in both lists. -/
theorem C1_rodada_particiona (s : Estado) (ps : List Jogador)
    (hn : s.num_jogadores = (ps.length : Int)) (h2 : 2 ≤ ps.length)
    (hd : (ps.map (fun p => p.id)).Nodup) :
    (reivindicacoes ps (iniciar_rodada s)).jogadores_com_cadeiras
        = ps.dropLast.map (fun p => p.id) ∧
    (reivindicacoes ps (iniciar_rodada s)).jogadores_eliminados
        = ps.getLast?.toList.map (fun p => p.id) ∧
    (reivindicacoes ps (iniciar_rodada s)).jogadores_com_cadeiras.length = ps.length - 1 ∧
    (reivindicacoes ps (iniciar_rodada s)).jogadores_eliminados.length = 1 ∧
    (reivindicacoes ps (iniciar_rodada s)).jogadores_com_cadeiras.length
        + (reivindicacoes ps (iniciar_rodada s)).jogadores_eliminados.length = ps.length ∧
    ∀ x, x ∈ (reivindicacoes ps (iniciar_rodada s)).jogadores_com_cadeiras →
      x ∉ (reivindicacoes ps (iniciar_rodada s)).jogadores_eliminados := by
  have hne : ps ≠ [] := by
    intro h; rw [h] at h2; simp at h2
  obtain ⟨qs, u, rfl⟩ : ∃ qs u, ps = qs ++ [u] :=
    ⟨ps.dropLast, ps.getLast hne, (List.dropLast_append_getLast hne).symm⟩
  have hn1 : s.num_jogadores = (qs.length : Int) + 1 := by
    rw [hn]; simp
  rw [reivindicacoes_rodada qs u s hn1]
  have hnd : u.id ∉ qs.map (fun p => p.id) := by
    rw [List.map_append, List.nodup_append] at hd
    intro hmem
    exact hd.2.2 hmem (by simp)
  refine ⟨by simp, by simp, by simp, by simp, by simp, ?_⟩
  intro x hx
  simp only [List.mem_singleton]
  intro hxu
  exact hnd (hxu ▸ hx)

theorem C1_rodada_particiona_witness :
    (reivindicacoes [⟨3, false⟩, ⟨1, false⟩, ⟨4, false⟩, ⟨2, false⟩]
        (iniciar_rodada (estado_inicial 4 0))).jogadores_com_cadeiras = [3, 1, 4] ∧
    (reivindicacoes [⟨3, false⟩, ⟨1, false⟩, ⟨4, false⟩, ⟨2, false⟩]
        (iniciar_rodada (estado_inicial 4 0))).jogadores_eliminados = [2] := by
  have h := C1_rodada_particiona (estado_inicial 4 0)
    [⟨3, false⟩, ⟨1, false⟩, ⟨4, false⟩, ⟨2, false⟩] (by decide) (by decide) (by decide)
  exact ⟨h.1, h.2.1⟩

/-- C6: the check-and-claim step `verificar_eliminacao` records the participant
in exactly one outcome list.  With `cadeiras > 0` it appends the id to
`jogadores_com_cadeiras`, lowers `cadeiras` by one and leaves
`jogadores_eliminados`, `num_jogadores` and the flag `eliminado` as they were;
otherwise it appends the id to `jogadores_eliminados`, lowers `num_jogadores`
by one, sets `eliminado` and leaves `jogadores_com_cadeiras` and `cadeiras` as
they were. -/
theorem C6_verificar_eliminacao_um_resultado (p : Jogador) (s : Estado) :
    (0 < s.cadeiras →
      (verificar_eliminacao p s).2.jogadores_com_cadeiras = s.jogadores_com_cadeiras ++ [p.id] ∧
      (verificar_eliminacao p s).2.cadeiras = s.cadeiras - 1 ∧
      (verificar_eliminacao p s).2.jogadores_eliminados = s.jogadores_eliminados ∧
      (verificar_eliminacao p s).2.num_jogadores = s.num_jogadores ∧
      (verificar_eliminacao p s).1.eliminado = p.eliminado) ∧
    (¬ 0 < s.cadeiras →
      (verificar_eliminacao p s).2.jogadores_eliminados = s.jogadores_eliminados ++ [p.id] ∧
      (verificar_eliminacao p s).2.num_jogadores = s.num_jogadores - 1 ∧
      (verificar_eliminacao p s).1.eliminado = true ∧
      (verificar_eliminacao p s).2.jogadores_com_cadeiras = s.jogadores_com_cadeiras ∧
      (verificar_eliminacao p s).2.cadeiras = s.cadeiras) ∧
    (verificar_eliminacao p s).1.id = p.id ∧
    (verificar_eliminacao p s).2.vencedor = s.vencedor ∧
    (verificar_eliminacao p s).2.cadeira_sem = s.cadeira_sem ∧
    (verificar_eliminacao p s).2.musica_parada = s.musica_parada ∧
    (verificar_eliminacao p s).2.jogo_ativo = s.jogo_ativo := by
  by_cases h : 0 < s.cadeiras
  · rw [verificar_eliminacao_senta p s h]
    simp [ocupar_cadeira, h]
  · rw [verificar_eliminacao_elimina p s (not_lt.mp h)]
    simp [eliminar_jogador, h]

theorem C6_verificar_eliminacao_um_resultado_witness :
    (verificar_eliminacao ⟨2, false⟩ (iniciar_rodada (estado_inicial 4 0))).2.jogadores_com_cadeiras
      = [2] ∧
    (verificar_eliminacao ⟨2, false⟩ (iniciar_rodada (estado_inicial 1 0))).2.jogadores_eliminados
      = [2] :=
  ⟨((C6_verificar_eliminacao_um_resultado ⟨2, false⟩
      (iniciar_rodada (estado_inicial 4 0))).1 (by decide)).1,
   ((C6_verificar_eliminacao_um_resultado ⟨2, false⟩
      (iniciar_rodada (estado_inicial 1 0))).2.1 (by decide)).1⟩

theorem reivindicacoes_cadeiras (ps : List Jogador) (s : Estado) (h : 0 ≤ s.cadeiras) :
    0 ≤ (reivindicacoes ps s).cadeiras ∧ (reivindicacoes ps s).cadeiras ≤ s.cadeiras := by
  induction ps generalizing s with
  | nil => simp [reivindicacoes, h]
  | cons p ps ih =>
    rw [reivindicacoes]
    by_cases hp : 0 < s.cadeiras
    · rw [verificar_eliminacao_senta p s hp]
      have h1 : 0 ≤ (ocupar_cadeira p.id s).cadeiras := by simp [ocupar_cadeira]; omega
      have h2 : (ocupar_cadeira p.id s).cadeiras ≤ s.cadeiras := by simp [ocupar_cadeira]
      have := ih _ h1
      exact ⟨this.1, le_trans this.2 h2⟩
    · rw [verificar_eliminacao_elimina p s (not_lt.mp hp)]
      have h1 : (eliminar_jogador p.id s).cadeiras = s.cadeiras := by simp [eliminar_jogador]
      have := ih (eliminar_jogador p.id s) (by rw [h1]; exact h)
      rw [h1] at this
      exact this

/-- C8: right after `iniciar_rodada` on a state with `num_jogadores >= 1` the
seat count `cadeiras` equals `num_jogadores - 1`; along every sequence of claim
steps `verificar_eliminacao` that follows (any participants, any number of
times) it stays at or above 0, and no claim step raises it. -/
theorem C8_cadeiras_monotona (s : Estado) (h1 : 1 ≤ s.num_jogadores) :
    (iniciar_rodada s).cadeiras = s.num_jogadores - 1 ∧
    ∀ (ps : List Jogador) (p : Jogador),
      0 ≤ (reivindicacoes ps (iniciar_rodada s)).cadeiras ∧
      (reivindicacoes ps (iniciar_rodada s)).cadeiras ≤ (iniciar_rodada s).cadeiras ∧
      0 ≤ (verificar_eliminacao p (reivindicacoes ps (iniciar_rodada s))).2.cadeiras ∧
      (verificar_eliminacao p (reivindicacoes ps (iniciar_rodada s))).2.cadeiras
        ≤ (reivindicacoes ps (iniciar_rodada s)).cadeiras := by
  have hc : (iniciar_rodada s).cadeiras = s.num_jogadores - 1 := by
    simp [iniciar_rodada, release, CADEIRAS_RETIRADAS_TURNO]
  have h0 : 0 ≤ (iniciar_rodada s).cadeiras := by rw [hc]; omega
  refine ⟨hc, ?_⟩
  intro ps p
  have ha := reivindicacoes_cadeiras ps _ h0
  have hb := reivindicacoes_cadeiras [p] _ ha.1
  simp only [reivindicacoes] at hb
  exact ⟨ha.1, ha.2, hb.1, hb.2⟩

theorem C8_cadeiras_monotona_witness :
    (iniciar_rodada (estado_inicial 4 7)).cadeiras = 3 ∧
    (reivindicacoes [⟨2, false⟩, ⟨2, false⟩, ⟨1, false⟩, ⟨3, false⟩, ⟨4, false⟩]
      (iniciar_rodada (estado_inicial 4 7))).cadeiras = 0 := by
  have h := C8_cadeiras_monotona (estado_inicial 4 7) (by decide)
  refine ⟨h.1, ?_⟩
  have h2 := (h.2 [⟨2, false⟩, ⟨2, false⟩, ⟨1, false⟩, ⟨3, false⟩, ⟨4, false⟩] ⟨9, false⟩).1
  have h3 : (reivindicacoes [⟨2, false⟩, ⟨2, false⟩, ⟨1, false⟩, ⟨3, false⟩, ⟨4, false⟩]
      (iniciar_rodada (estado_inicial 4 7))).cadeiras ≤ 0 := by decide
  omega

/-- C5 (evaluation of the code): with the roster of `main`
(`NUM_JOGADORES = 4`) the first `iniciar_rodada` leaves the semaphore counter
at 6, which is neither `num_jogadores - 1 = 3` nor at most `N - 1 = 3`, and is
above the capacity 4 declared for `cadeira_sem`. -/
theorem C5_semaforo_apos_iniciar_rodada (c : Int) :
    (iniciar_rodada (estado_inicial NUM_JOGADORES c)).cadeira_sem = 6 ∧
    (iniciar_rodada (estado_inicial NUM_JOGADORES c)).num_jogadores - 1 = 3 ∧
    ¬ (iniciar_rodada (estado_inicial NUM_JOGADORES c)).cadeira_sem
        ≤ (NUM_JOGADORES : Int) - 1 ∧
    ¬ (iniciar_rodada (estado_inicial NUM_JOGADORES c)).cadeira_sem ≤ (NUM_JOGADORES : Int) := by
  simp [iniciar_rodada, estado_inicial, release, NUM_JOGADORES, CADEIRAS_RETIRADAS_TURNO]

/-- C9 (evaluation of the code): with the roster of `main`, once participants
1, 2 and 3 have passed `acquire` and taken the three seats of the first round
(`cadeiras = 0`), the semaphore counter is 3, not 0, and participant 4 passes
`acquire` and is eliminated although `liberar_threads_eliminadas` has not run. -/
theorem C9_acquire_com_cadeiras_zero :
    (reivindicam [1, 2, 3]
        { mundo_inicial NUM_JOGADORES 0 with
          estado := parar_musica (iniciar_rodada (mundo_inicial NUM_JOGADORES 0).estado) }).map
        (fun m => m.estado)
      = some { jogadores_com_cadeiras := [1, 2, 3], jogadores_eliminados := [],
               num_jogadores := 4, cadeiras := 0, vencedor := -1, cadeira_sem := 3,
               musica_parada := false, jogo_ativo := true } ∧
    tentar_ocupar_cadeira
        { jogadores_com_cadeiras := [1, 2, 3], jogadores_eliminados := [],
          num_jogadores := 4, cadeiras := 0, vencedor := -1, cadeira_sem := 3,
          musica_parada := false, jogo_ativo := true }
      = some { jogadores_com_cadeiras := [1, 2, 3], jogadores_eliminados := [],
               num_jogadores := 4, cadeiras := 0, vencedor := -1, cadeira_sem := 2,
               musica_parada := false, jogo_ativo := true } ∧
    (reivindicam [1, 2, 3, 4]
        { mundo_inicial NUM_JOGADORES 0 with
          estado := parar_musica (iniciar_rodada (mundo_inicial NUM_JOGADORES 0).estado) }).map
        (fun m => (m.estado.jogadores_eliminados, m.estado.cadeira_sem))
      = some ([4], 2) := by
  decide

theorem executa_acao_musica (a : Acao) (s s1 : Estado) (h : executa_acao a s = some s1) :
    s1.musica_parada = s.musica_parada := by
  cases a with
  | adquire =>
    simp only [executa_acao, tentar_ocupar_cadeira, acquire] at h
    split at h
    · cases h; rfl
    · cases h
  | verifica p =>
    simp only [executa_acao, Option.some.injEq] at h
    subst h
    simp only [verificar_eliminacao]; split <;> rfl
  | libera =>
    simp only [executa_acao, Option.some.injEq] at h
    subst h; rfl
  | fim_jogo =>
    simp only [executa_acao, verificar_fim_jogo] at h
    split at h
    · rename_i x s2 heq
      cases h
      split at heq
      · split at heq
        · cases heq
        · cases heq; rfl
      · cases heq; rfl
    · cases h

theorem executa_acoes_musica (acoes : List Acao) (s s1 : Estado)
    (h : executa_acoes acoes s = some s1) : s1.musica_parada = s.musica_parada := by
  induction acoes generalizing s with
  | nil =>
    simp only [executa_acoes, Option.some.injEq] at h
    subst h; rfl
  | cons a rest ih =>
    simp only [executa_acoes] at h
    split at h
    · cases h
    · rename_i s2 heq
      rw [ih s2 h, executa_acao_musica a s s2 heq]

/-- C7 (counterexample): in the first round of the game of `main`, after
`parar_musica` and the claim of participant 1 (seated, `eliminado` false),
the flag `musica_parada` reads false, so participant 1 passes the exit test of
the wait loop if it wakes; its next pass through `joga` reaches
`verificar_eliminacao` and records it a second time in the same round. -/
theorem C7_reentrada_contraexemplo :
    (reivindicam [1]
        { mundo_inicial NUM_JOGADORES 0 with
          estado := parar_musica (iniciar_rodada (mundo_inicial NUM_JOGADORES 0).estado) }).map
        (fun m => (m.estado, m.jogadores.find? (fun p => p.id == 1)))
      = some ({ jogadores_com_cadeiras := [1], jogadores_eliminados := [], num_jogadores := 4,
                cadeiras := 2, vencedor := -1, cadeira_sem := 5, musica_parada := false,
                jogo_ativo := true }, some ⟨1, false⟩) ∧
    passa_espera
      { jogadores_com_cadeiras := [1], jogadores_eliminados := [], num_jogadores := 4,
        cadeiras := 2, vencedor := -1, cadeira_sem := 5, musica_parada := false,
        jogo_ativo := true } = true ∧
    joga_iteracao ⟨1, false⟩
      { jogadores_com_cadeiras := [1], jogadores_eliminados := [], num_jogadores := 4,
        cadeiras := 2, vencedor := -1, cadeira_sem := 5, musica_parada := false,
        jogo_ativo := true }
      = Passo.reivindicou ⟨1, false⟩
          { jogadores_com_cadeiras := [1, 1], jogadores_eliminados := [], num_jogadores := 4,
            cadeiras := 1, vencedor := -1, cadeira_sem := 4, musica_parada := false,
            jogo_ativo := true } := by
  decide

/-- C7 (amended): the re-check of the wait loop holds a waking participant
back only while `musica_parada` is true.  In every state reached from
`parar_musica` by steps of the round (participants' `acquire` and
`verificar_eliminacao`, the coordinator's `liberar_threads_eliminadas` and
`verificar_fim_jogo`) the flag is false, so every participant that wakes
there passes the exit test, whether or not it has been seated in this round;
right after the next `iniciar_rodada` the flag is true and the test fails
until the next `parar_musica`. -/
theorem C7_espera_depende_da_bandeira (s s1 : Estado) (acoes : List Acao)
    (h : executa_acoes acoes (parar_musica s) = some s1) :
    s1.musica_parada = false ∧ passa_espera s1 = true ∧
    passa_espera (iniciar_rodada s1) = false ∧
    passa_espera (parar_musica (iniciar_rodada s1)) = true ∧
    (∀ p : Jogador, p.eliminado = false → s1.jogo_ativo = true → 0 < s1.cadeira_sem →
      joga_iteracao p s1 =
        Passo.reivindicou
          (verificar_eliminacao p { s1 with cadeira_sem := s1.cadeira_sem - 1 }).1
          (verificar_eliminacao p { s1 with cadeira_sem := s1.cadeira_sem - 1 }).2) := by
  have hm : s1.musica_parada = false := by
    rw [executa_acoes_musica acoes _ s1 h]; rfl
  refine ⟨hm, by simp [passa_espera, hm], by simp [passa_espera, iniciar_rodada, release],
    by simp [passa_espera, parar_musica], ?_⟩
  intro p hp hj hc
  simp [joga_iteracao, hp, passa_espera, hm, hj, tentar_ocupar_cadeira, acquire, hc]

theorem C7_espera_depende_da_bandeira_witness :
    passa_espera
      { jogadores_com_cadeiras := [2, 3], jogadores_eliminados := [], num_jogadores := 4,
        cadeiras := 1, vencedor := -1, cadeira_sem := 5, musica_parada := false,
        jogo_ativo := true } = true :=
  (C7_espera_depende_da_bandeira (iniciar_rodada (estado_inicial 4 0))
    { jogadores_com_cadeiras := [2, 3], jogadores_eliminados := [], num_jogadores := 4,
      cadeiras := 1, vencedor := -1, cadeira_sem := 5, musica_parada := false,
      jogo_ativo := true }
    [Acao.adquire, Acao.verifica ⟨2, false⟩, Acao.adquire, Acao.verifica ⟨3, false⟩,
      Acao.libera, Acao.fim_jogo]
    (by decide)).2.1

theorem aplica_op_efeito (o : OpSemaforo) (s s1 : Estado) (h : aplica_op o s = some s1) :
    s1.num_jogadores = s.num_jogadores ∧
    s1.cadeira_sem = s.cadeira_sem + variacao s.num_jogadores o := by
  cases o with
  | inicia =>
    simp only [aplica_op, Option.some.injEq] at h
    subst h
    simp [iniciar_rodada, release, variacao]
  | adquire =>
    simp only [aplica_op, tentar_ocupar_cadeira, acquire] at h
    split at h
    · cases h
      simp [variacao]
      omega
    · cases h
  | libera =>
    simp only [aplica_op, Option.some.injEq] at h
    subst h
    simp [liberar_threads_eliminadas, release, variacao]

theorem aplica_ops_efeito (ops : List OpSemaforo) (s s1 : Estado)
    (h : aplica_ops ops s = some s1) :
    s1.num_jogadores = s.num_jogadores ∧
    s1.cadeira_sem = s.cadeira_sem + (ops.map (variacao s.num_jogadores)).sum := by
  induction ops generalizing s with
  | nil =>
    simp only [aplica_ops, Option.some.injEq] at h
    subst h; simp
  | cons o os ih =>
    simp only [aplica_ops] at h
    split at h
    · cases h
    · rename_i s2 heq
      have h1 := aplica_op_efeito o s s2 heq
      have h2 := ih s2 h
      rw [h1.1] at h2
      refine ⟨h2.1, ?_⟩
      rw [h2.2, h1.2, List.map_cons, List.sum_cons]
      ring

theorem aplica_ops_adquire (n : Nat) (s : Estado) (h : (n : Int) ≤ s.cadeira_sem) :
    aplica_ops (List.replicate n OpSemaforo.adquire) s
      = some { s with cadeira_sem := s.cadeira_sem - n } := by
  induction n generalizing s with
  | zero => simp [aplica_ops]
  | succ k ih =>
    have hpos : 0 < s.cadeira_sem := by push_cast at h; omega
    simp only [List.replicate_succ, aplica_ops, aplica_op, tentar_ocupar_cadeira, acquire,
      hpos, if_true]
    rw [ih _ (by simp only; push_cast at h; omega)]
    simp
    ring

theorem aplica_ops_append (a b : List OpSemaforo) (s : Estado) :
    aplica_ops (a ++ b) s = (aplica_ops a s).bind (aplica_ops b) := by
  induction a generalizing s with
  | nil => simp [aplica_ops]
  | cons o os ih =>
    simp only [List.cons_append, aplica_ops]
    split
    · simp
    · exact ih _

/-- C10: semaphore permits are conserved per round.  In a game with
`N >= 2` initial participants, take a round with `n` active participants that
starts with the counter of `cadeira_sem` at `N - 1`.  The semaphore operations
of the round (the `release(n - 1)` of `iniciar_rodada`, one `acquire()` per
active participant, the `release(1)` of `liberar_threads_eliminadas`), in any
order in which every `acquire` finds a positive counter, leave the counter at
`N - 1` again, whatever `n` is; and the order of the program (round start,
then the acquires, then the coordinator's release) is such an order. -/
theorem C10_permissoes_conservadas (N n : Nat) (s : Estado) (hN : 2 ≤ N)
    (hs : s.cadeira_sem = (N : Int) - 1) (hn : s.num_jogadores = (n : Int)) :
    (∀ (ops : List OpSemaforo) (s1 : Estado),
      ops.Perm (OpSemaforo.inicia :: OpSemaforo.libera
        :: List.replicate n OpSemaforo.adquire) →
      aplica_ops ops s = some s1 → s1.cadeira_sem = (N : Int) - 1) ∧
    (aplica_ops (OpSemaforo.inicia :: (List.replicate n OpSemaforo.adquire
        ++ [OpSemaforo.libera])) s).map (fun s1 => s1.cadeira_sem) = some ((N : Int) - 1) := by
  have key : ∀ (ops : List OpSemaforo) (s1 : Estado),
      ops.Perm (OpSemaforo.inicia :: OpSemaforo.libera
        :: List.replicate n OpSemaforo.adquire) →
      aplica_ops ops s = some s1 → s1.cadeira_sem = (N : Int) - 1 := by
    intro ops s1 hp h
    have h1 := (aplica_ops_efeito ops s s1 h).2
    have h2 : (ops.map (variacao s.num_jogadores)).sum
        = ((OpSemaforo.inicia :: OpSemaforo.libera
            :: List.replicate n OpSemaforo.adquire).map (variacao s.num_jogadores)).sum :=
      (hp.map _).sum_eq
    rw [h1, h2, hs, hn]
    simp [variacao, CADEIRAS_RETIRADAS_TURNO]
    ring
  refine ⟨key, ?_⟩
  have hrun : aplica_ops (OpSemaforo.inicia :: (List.replicate n OpSemaforo.adquire
      ++ [OpSemaforo.libera])) s
      = some (liberar_threads_eliminadas
          { iniciar_rodada s with cadeira_sem := (iniciar_rodada s).cadeira_sem - n }) := by
    have hc : (n : Int) ≤ (iniciar_rodada s).cadeira_sem := by
      simp [iniciar_rodada, release, CADEIRAS_RETIRADAS_TURNO, hs, hn]
      omega
    rw [aplica_ops]
    simp only [aplica_op]
    rw [aplica_ops_append, aplica_ops_adquire n _ hc]
    simp [aplica_ops, aplica_op]
  have hfin := key _ _ (by
    refine List.Perm.cons _ ?_
    rw [List.perm_comm]
    exact List.perm_append_singleton _ _ |>.symm) hrun
  rw [hrun]
  simp only [Option.map_some']
  rw [hfin]

theorem C10_permissoes_conservadas_witness :
    aplica_ops [OpSemaforo.inicia, OpSemaforo.adquire, OpSemaforo.adquire, OpSemaforo.libera,
        OpSemaforo.adquire] { estado_inicial 4 0 with num_jogadores := 3 }
      = some { jogadores_com_cadeiras := [], jogadores_eliminados := [], num_jogadores := 3,
               cadeiras := 2, vencedor := -1, cadeira_sem := 3, musica_parada := true,
               jogo_ativo := true } ∧
    (3 : Int) = ((4 : Nat) : Int) - 1 :=
  ⟨by decide,
   (C10_permissoes_conservadas 4 3
      { estado_inicial 4 0 with num_jogadores := 3 } (by decide) (by decide) (by decide)).1
      [OpSemaforo.inicia, OpSemaforo.adquire, OpSemaforo.adquire, OpSemaforo.libera,
        OpSemaforo.adquire]
      { jogadores_com_cadeiras := [], jogadores_eliminados := [], num_jogadores := 3,
        cadeiras := 2, vencedor := -1, cadeira_sem := 3, musica_parada := true,
        jogo_ativo := true }
      (by decide) (by decide)⟩

/-! ## Runs of the whole program under a schedule -/

theorem joga_iteracao_reivindica (p : Jogador) (s : Estado) (hp : p.eliminado = false)
    (hm : s.musica_parada = false) (hj : s.jogo_ativo = true) (hs : 0 < s.cadeira_sem) :
    joga_iteracao p s =
      Passo.reivindicou
        (verificar_eliminacao p { s with cadeira_sem := s.cadeira_sem - 1 }).1
        (verificar_eliminacao p { s with cadeira_sem := s.cadeira_sem - 1 }).2 := by
  simp [joga_iteracao, hp, passa_espera, hm, hj, tentar_ocupar_cadeira, acquire, hs]

/-! In a state where the participant is alone at `wait` with the mutex free, the
steps of one pass in the step function come to what `joga_iteracao` gives for
the whole pass, whether the participant is seated or eliminated. -/
theorem passe_como_joga_iteracao (p : Jogador) (S : Sistema)
    (hf : S.fios = [⟨p, PontoJogador.esperando⟩]) (hd : S.dono = none)
    (hp : p.eliminado = false) (hm : S.estado.musica_parada = false)
    (hj : S.estado.jogo_ativo = true) (hs : 0 < S.estado.cadeira_sem)
    (hc : 0 < S.estado.cadeiras) :
    (executa (passe p.id) S).map
        (fun T => (Passo.reivindicou p T.estado, T.fios, T.dono, T.ponto, T.passagens))
      = some (joga_iteracao p S.estado, S.fios, none, S.ponto, S.passagens) := by
  rw [joga_iteracao_reivindica p S.estado hp hm hj hs]
  simp [passe, executa, passo, passo_fio, hf, hd, passa_espera, hm, hj, tentar_ocupar_cadeira,
    acquire, hs, tem_cadeira_disponivel, hc, verificar_eliminacao]

theorem passe_eliminado_como_joga_iteracao (p : Jogador) (S : Sistema)
    (hf : S.fios = [⟨p, PontoJogador.esperando⟩]) (hd : S.dono = none)
    (hp : p.eliminado = false) (hm : S.estado.musica_parada = false)
    (hj : S.estado.jogo_ativo = true) (hs : 0 < S.estado.cadeira_sem)
    (hc : S.estado.cadeiras ≤ 0) :
    (executa (passe p.id ++ [Agente.jogador p.id]) S).map
        (fun T => (Passo.reivindicou ⟨p.id, true⟩ T.estado, T.fios, T.dono, T.ponto, T.passagens))
      = some (joga_iteracao p S.estado, [⟨⟨p.id, true⟩, PontoJogador.saiu⟩], none, S.ponto,
          S.passagens) := by
  rw [joga_iteracao_reivindica p S.estado hp hm hj hs]
  have hc1 : ¬ 0 < S.estado.cadeiras := not_lt.mpr hc
  simp [passe, executa, passo, passo_fio, hf, hd, passa_espera, hm, hj, tentar_ocupar_cadeira,
    acquire, hs, tem_cadeira_disponivel, hc1, verificar_eliminacao, eliminar_jogador,
    eliminar_jogador_registra, eliminar_jogador_decrementa]

/-- C2 (evaluation of the code): the program of `main` (`NUM_JOGADORES = 4`)
under `agenda_contagem_atrasada_4`.  Every active participant claims exactly
once in each round, yet after the second pass of the coordinator loop has
begun the three remaining participants are all seated, nobody is eliminated,
`num_jogadores` is 3 while `cadeiras` was set from the count 4, and the
coordinator stays in its second busy wait with `jogo_ativo` still true: a step
of the coordinator changes nothing, participant 4 has left its loop, and the
only steps left are second passes of seated participants.  The loop does not
reach the 3 passes of the claim. -/
theorem C2_contagem_atrasada :
    executa agenda_contagem_atrasada_4 (sistema_inicial NUM_JOGADORES 0)
      = some
          { estado :=
              { jogadores_com_cadeiras := [1, 2, 3], jogadores_eliminados := [],
                num_jogadores := 3, cadeiras := 0, vencedor := -1, cadeira_sem := 4,
                musica_parada := false, jogo_ativo := true }
            fios := [⟨⟨1, false⟩, PontoJogador.esperando⟩, ⟨⟨2, false⟩, PontoJogador.esperando⟩,
                     ⟨⟨3, false⟩, PontoJogador.esperando⟩, ⟨⟨4, true⟩, PontoJogador.saiu⟩]
            ponto := PontoCoordenador.espera_eliminados
            dono := none
            passagens := 2 } ∧
    executa (agenda_contagem_atrasada_4 ++ [Agente.coordenador])
        (sistema_inicial NUM_JOGADORES 0)
      = executa agenda_contagem_atrasada_4 (sistema_inicial NUM_JOGADORES 0) ∧
    executa (agenda_contagem_atrasada_4 ++ [Agente.jogador 4])
        (sistema_inicial NUM_JOGADORES 0) = none ∧
    (executa (agenda_contagem_atrasada_4 ++ [Agente.jogador 1])
        (sistema_inicial NUM_JOGADORES 0)).map (fun S => S.fios.map (fun f => f.ponto))
      = some [PontoJogador.adquirindo, PontoJogador.esperando, PontoJogador.esperando,
              PontoJogador.saiu] ∧
    (executa (agenda_contagem_atrasada_4 ++ [Agente.jogador 2])
        (sistema_inicial NUM_JOGADORES 0)).map (fun S => S.fios.map (fun f => f.ponto))
      = some [PontoJogador.esperando, PontoJogador.adquirindo, PontoJogador.esperando,
              PontoJogador.saiu] ∧
    (executa (agenda_contagem_atrasada_4 ++ [Agente.jogador 3])
        (sistema_inicial NUM_JOGADORES 0)).map (fun S => S.fios.map (fun f => f.ponto))
      = some [PontoJogador.esperando, PontoJogador.esperando, PontoJogador.adquirindo,
              PontoJogador.saiu] := by
  decide

/-- C3 (evaluation of the code): a game of three participants under
`agenda_contagem_atrasada_3`.  Every active participant claims exactly once in
each round; in round 2 participants 1 and 2 are both seated because
`iniciar_rodada` set `cadeiras` from the count 3, nobody is eliminated, and the
coordinator stays in its second busy wait: `verificar_fim_jogo` is not reached
again and `vencedor` keeps the value -1 although two participants are still
in the game. -/
theorem C3_vencedor_nao_atribuido :
    executa agenda_contagem_atrasada_3 (sistema_inicial 3 0)
      = some
          { estado :=
              { jogadores_com_cadeiras := [1, 2], jogadores_eliminados := [],
                num_jogadores := 2, cadeiras := 0, vencedor := -1, cadeira_sem := 3,
                musica_parada := false, jogo_ativo := true }
            fios := [⟨⟨1, false⟩, PontoJogador.esperando⟩, ⟨⟨2, false⟩, PontoJogador.esperando⟩,
                     ⟨⟨3, true⟩, PontoJogador.saiu⟩]
            ponto := PontoCoordenador.espera_eliminados
            dono := none
            passagens := 2 } ∧
    executa (agenda_contagem_atrasada_3 ++ [Agente.coordenador, Agente.coordenador])
        (sistema_inicial 3 0)
      = executa agenda_contagem_atrasada_3 (sistema_inicial 3 0) ∧
    executa (agenda_contagem_atrasada_3 ++ [Agente.jogador 3]) (sistema_inicial 3 0) = none := by
  decide

/-- C4 (evaluation of the code): a game with a single participant under
`agenda_um_jogador`.  The coordinator loop is entered (one pass begun, not
zero); the participant cannot pass `acquire` before the coordinator's release;
after it the participant finds no seat and is recorded in
`jogadores_eliminados`, with `jogadores_com_cadeiras` empty; and
`verificar_fim_jogo` then reads `jogadores_com_cadeiras[0]` of that empty
vector, so the step has no defined result and no winner is obtained. -/
theorem C4_um_jogador_leitura_invalida :
    executa agenda_um_jogador (sistema_inicial 1 0)
      = some
          { estado :=
              { jogadores_com_cadeiras := [], jogadores_eliminados := [1],
                num_jogadores := 0, cadeiras := 0, vencedor := -1, cadeira_sem := 0,
                musica_parada := false, jogo_ativo := true }
            fios := [⟨⟨1, true⟩, PontoJogador.saiu⟩]
            ponto := PontoCoordenador.verifica_fim
            dono := none
            passagens := 1 } ∧
    verificar_fim_jogo
        { jogadores_com_cadeiras := [], jogadores_eliminados := [1],
          num_jogadores := 0, cadeiras := 0, vencedor := -1, cadeira_sem := 0,
          musica_parada := false, jogo_ativo := true }
      = Except.error
          { jogadores_com_cadeiras := [], jogadores_eliminados := [1],
            num_jogadores := 0, cadeiras := 0, vencedor := -1, cadeira_sem := 0,
            musica_parada := false, jogo_ativo := false } ∧
    executa (agenda_um_jogador ++ [Agente.coordenador]) (sistema_inicial 1 0) = none ∧
    executa (abertura ++ [Agente.jogador 1, Agente.jogador 1]) (sistema_inicial 1 0) = none := by
  refine ⟨by decide, rfl, by decide, by decide⟩

/-- The program of `main` under `agenda_em_ordem_4`, where every elimination is
completed before the coordinator's second busy wait ends: the loop makes three
passes and ends with `jogo_ativo` false and `vencedor` the id of the one
participant that is not eliminated. -/
theorem jogo_em_ordem_4 :
    executa agenda_em_ordem_4 (sistema_inicial NUM_JOGADORES 0)
      = some
          { estado :=
              { jogadores_com_cadeiras := [3], jogadores_eliminados := [1],
                num_jogadores := 1, cadeiras := 0, vencedor := 3, cadeira_sem := 3,
                musica_parada := false, jogo_ativo := false }
            fios := [⟨⟨1, true⟩, PontoJogador.saiu⟩, ⟨⟨2, true⟩, PontoJogador.saiu⟩,
                     ⟨⟨3, false⟩, PontoJogador.esperando⟩, ⟨⟨4, true⟩, PontoJogador.saiu⟩]
            ponto := PontoCoordenador.fora_do_laco
            dono := none
            passagens := 3 } := by
  decide

theorem eliminar_jogador_em_dois_passos (jogador_id : Int) (s : Estado) :
    eliminar_jogador jogador_id s
      = eliminar_jogador_decrementa (eliminar_jogador_registra jogador_id s) := rfl

end MusicalChairs
